import Mathlib

/-!
The script update_events_location.js

A verification development for the MongoDB shell script
`app/scripts/update_events_location.js`.  The script builds one filter and one
`$set` update, hands both to `db.events.updateMany`, prints two lines and
returns the store's result.

The file has three layers:

* the document model (BSON values, event records, collections);
* the part of the store the script relies on: how the server parses the
  filter operators `$exists`, equality, `$size` and `$or`, how a parsed filter
  selects records, how `$set` rewrites a record, and what `updateMany` reports;
* the script itself: `targetLocation`, `query`, `update` and
  `updateEventsWithoutLocation`, translated line by line.

Numbers are modelled by the rational value their decimal literal denotes.
-/

namespace UpdateEventsLocation

/-! ## Documents -/

mutual
/-- A BSON value as the script and the event records use them. -/
inductive Value where
  | null : Value
  | bool (b : Bool) : Value
  | num (q : Rat) : Value
  | str (s : String) : Value
  | arr (xs : Elems) : Value
  | doc (fs : Fields) : Value
/-- The elements of an array, in order. -/
inductive Elems where
  | nil : Elems
  | cons (v : Value) (vs : Elems) : Elems
/-- The fields of a document, in order. -/
inductive Fields where
  | nil : Fields
  | cons (k : String) (v : Value) (fs : Fields) : Fields
end

deriving instance DecidableEq for Value, Elems, Fields

/-- An event record is a document: its list of top-level fields. -/
abbrev Record := Fields

/-- The `events` collection. -/
abbrev Collection := List Record

/-- The elements of an array as a list. -/
def Elems.toList : Elems → List Value
  | .nil => []
  | .cons v vs => v :: vs.toList

/-- Number of elements of an array. -/
def Elems.length : Elems → Nat
  | .nil => 0
  | .cons _ vs => vs.length + 1

/-- Field lookup: `none` when the document has no field of that name. -/
def Fields.get? : Fields → String → Option Value
  | .nil, _ => none
  | .cons k v fs, name => if k = name then some v else fs.get? name

/-- Writing a field: an existing field keeps its place and takes the new
value, a new field is appended after the others. -/
def Fields.set : Fields → String → Value → Fields
  | .nil, name, w => .cons name w .nil
  | .cons k v fs, name, w => if k = name then .cons k w fs else .cons k v (fs.set name w)

/-! ## The store: filters -/

/-- The right-hand side of one filter clause, as written in the script:
a literal (equality), the object with `$exists`, or the object with `$size`.
The operand of `$size` is whatever value the script put there. -/
inductive Cond where
  | eq (v : Value) : Cond
  | exists_ (b : Bool) : Cond
  | size (operand : Value) : Cond
  deriving DecidableEq

/-- One clause: a dotted field path and its condition. -/
structure Clause where
  path : List String
  cond : Cond
  deriving DecidableEq

/-- A filter: the script only builds a top-level `$or` of clauses. -/
inductive Query where
  | or (clauses : List Clause) : Query
  deriving DecidableEq

/-- The update document: the fields listed under `$set`. -/
structure UpdateDoc where
  set : List (String × Value)
  deriving DecidableEq

/-- Errors the store raises. `badValue` is the server's code 2. -/
inductive StoreError where
  | badValue (msg : String) : StoreError
  | other (code : Nat) (msg : String) : StoreError
  deriving DecidableEq

/-- A condition after the server has parsed it: `$size` carries a length. -/
inductive ParsedCond where
  | eq (v : Value) : ParsedCond
  | exists_ (b : Bool) : ParsedCond
  | size (n : Nat) : ParsedCond
  deriving DecidableEq

/-- A parsed clause. -/
structure ParsedClause where
  path : List String
  cond : ParsedCond
  deriving DecidableEq

/-- The server's parser for the operand of `$size`: the operand has to be a
number, a whole one, and not negative.  `$size` takes no operator document
(the MongoDB manual: "`$size` does not accept ranges of values"); an operand
of any other type is rejected with `BadValue` when the filter is parsed, in
every server version that offers `updateMany`.  The wording of the message
differs between versions; the error code does not. -/
def parseSize : Value → Except StoreError Nat
  | .num q =>
    if q.den = 1 then
      if 0 ≤ q.num then .ok q.num.toNat
      else .error (.badValue "Failed to parse $size. Expected a non-negative number")
    else .error (.badValue "Failed to parse $size. Expected an integer")
  | _ => .error (.badValue "Failed to parse $size. Expected a number")

/-- Parsing one condition. -/
def parseCond : Cond → Except StoreError ParsedCond
  | .eq v => .ok (.eq v)
  | .exists_ b => .ok (.exists_ b)
  | .size operand =>
    match parseSize operand with
    | .ok n => .ok (.size n)
    | .error e => .error e

/-- Parsing the clauses of a `$or`, left to right; the first clause the
server cannot parse rejects the whole filter. -/
def parseClauses : List Clause → Except StoreError (List ParsedClause)
  | [] => .ok []
  | c :: cs =>
    match parseCond c.cond with
    | .error e => .error e
    | .ok pc =>
      match parseClauses cs with
      | .error e => .error e
      | .ok pcs => .ok (⟨c.path, pc⟩ :: pcs)

/-- Parsing a filter.  The server parses the filter before it looks at any
record. -/
def parseQuery : Query → Except StoreError (List ParsedClause)
  | .or clauses => parseClauses clauses

/-- What a dotted path reaches in a document: `some v` for a value found,
`none` for a place where the path does not resolve.  A missing field, or a
scalar in the middle of the path, gives one `none`.  An array in the middle
of the path is traversed: each element that is a document is searched with
the rest of the path, other elements are skipped. -/
def reach : List String → Fields → List (Option Value)
  | [], fs => [some (.doc fs)]
  | k :: ks, fs =>
    match fs.get? k with
    | none => [none]
    | some v =>
      match ks with
      | [] => [some v]
      | _ :: _ =>
        match v with
        | .doc sub => reach ks sub
        | .arr xs =>
          xs.toList.flatMap (fun x =>
            match x with
            | .doc sub => reach ks sub
            | _ => [])
        | _ => [none]

/-- Equality against one reached place.  A literal `null` also matches a
place where the path does not resolve; an array matches when it is, or
contains, the literal. -/
def eqMatches (lit : Value) : Option Value → Bool
  | none => decide (lit = .null)
  | some (.arr xs) => decide (Value.arr xs = lit) || xs.toList.any (fun x => decide (x = lit))
  | some v => decide (v = lit)

/-- Length test against one reached place: only an array has a size. -/
def sizeMatches (n : Nat) : Option Value → Bool
  | some (.arr xs) => decide (xs.length = n)
  | _ => false

/-- Whether a parsed clause holds of a record. -/
def clauseMatches (c : ParsedClause) (d : Record) : Bool :=
  match c.cond with
  | .eq lit => (reach c.path d).any (eqMatches lit)
  | .exists_ b => (reach c.path d).any Option.isSome == b
  | .size n => (reach c.path d).any (sizeMatches n)

/-- Whether a parsed `$or` holds of a record: some clause does. -/
def queryMatches (cs : List ParsedClause) (d : Record) : Bool :=
  cs.any (fun c => clauseMatches c d)

/-- The store's verdict on one record under a filter as written: an error
when the filter does not parse, otherwise whether the record is selected. -/
def selects (q : Query) (d : Record) : Except StoreError Bool :=
  match parseQuery q with
  | .error e => .error e
  | .ok cs => .ok (queryMatches cs d)

/-! ## The store: `$set` and `updateMany` -/

/-- Order of field names, character by character. -/
def nameLt : List Char → List Char → Bool
  | _, [] => false
  | [], _ :: _ => true
  | a :: as, b :: bs => decide (a.toNat < b.toNat) || (a.toNat == b.toNat && nameLt as bs)

/-- Insertion of one `$set` entry into a list ordered by field name. -/
def insertSet (p : String × Value) : List (String × Value) → List (String × Value)
  | [] => [p]
  | q :: qs => if nameLt p.1.data q.1.data then p :: q :: qs else q :: insertSet p qs

/-- The entries of `$set` in the order the server processes them: by field
name. -/
def orderSets : List (String × Value) → List (String × Value)
  | [] => []
  | p :: ps => insertSet p (orderSets ps)

/-- Applying `$set` to one record. -/
def applySet (u : UpdateDoc) (d : Record) : Record :=
  (orderSets u.set).foldl (fun acc p => acc.set p.1 p.2) d

/-- The result object of `updateMany`. -/
structure UpdateResult where
  acknowledged : Bool
  matchedCount : Nat
  modifiedCount : Nat
  deriving DecidableEq

/-- What a call of `updateMany` leaves behind: the collection afterwards and
either the result object or the error thrown. -/
structure StoreReply where
  events : Collection
  result : Except StoreError UpdateResult

/-- A store handle, as far as the script uses it: its `updateMany` on the
`events` collection. -/
abbrev BulkUpdate := Query → UpdateDoc → Collection → StoreReply

/-- MongoDB's `updateMany`.  A filter that does not parse is rejected and
nothing is written.  Otherwise every selected record is rewritten by `$set`;
`matchedCount` counts the selected records, `modifiedCount` those among them
that the rewrite changed. -/
def updateMany : BulkUpdate := fun q u events =>
  match parseQuery q with
  | .error e => { events := events, result := .error e }
  | .ok cs =>
    { events := events.map (fun d => if queryMatches cs d then applySet u d else d)
      result := .ok
        { acknowledged := true
          matchedCount := (events.filter (fun d => queryMatches cs d)).length
          modifiedCount :=
            (events.filter (fun d => queryMatches cs d && decide (applySet u d ≠ d))).length } }

/-! ## The script -/

/-- The constant `targetLocation` of the script. -/
def targetLocation : Value :=
  .doc (.cons "type" (.str "Point")
    (.cons "coordinates" (.arr (.cons (.num (-71.08681349999999)) (.cons (.num 42.3392591) .nil)))
      .nil))

/-- The constant `query` of the script. -/
def query : Query :=
  .or
    [ ⟨["location"], .exists_ false⟩,
      ⟨["location"], .eq .null⟩,
      ⟨["location", "coordinates"], .exists_ false⟩,
      ⟨["location", "coordinates"], .eq .null⟩,
      ⟨["location", "coordinates"], .size (.doc (.cons "$ne" (.num 2) .nil))⟩ ]

/-- The update document the script passes to `updateMany`. -/
def update : UpdateDoc :=
  { set := [("location", targetLocation), ("address", .str "360 Huntington Ave, Boston, MA 02115")] }

/-- An observable step of one call of the script, in program order. -/
inductive Effect where
  | updateManyCall (q : Query) (u : UpdateDoc) : Effect
  | print (line : String) : Effect
  deriving DecidableEq

/-- One call of the script: the collection afterwards, the steps it took, and
what it returned or threw. -/
structure Run where
  events : Collection
  trace : List Effect
  result : Except StoreError UpdateResult

/-- The first line the script prints. -/
def updatedLine (r : UpdateResult) : String :=
  "Updated " ++ toString r.modifiedCount ++
    " events with location: 360 Huntington Ave, Boston, MA 02115"

/-- The second line the script prints. -/
def matchedLine (r : UpdateResult) : String :=
  "Matched " ++ toString r.matchedCount ++ " events total"

/-- The function `updateEventsWithoutLocation`, against a store handle `db`
and the current `events` collection.  An error thrown by `db` leaves the
function at the call, before either `print`. -/
def updateEventsWithoutLocation (db : BulkUpdate) (events : Collection) : Run :=
  let reply := db query update events
  match reply.result with
  | .error e =>
    { events := reply.events
      trace := [.updateManyCall query update]
      result := .error e }
  | .ok result =>
    { events := reply.events
      trace := [.updateManyCall query update, .print (updatedLine result),
        .print (matchedLine result)]
      result := .ok result }

/-- One call of the script against MongoDB. -/
def runScript (events : Collection) : Run :=
  updateEventsWithoutLocation updateMany events

/-- The coordinates the header comment of the script gives for the address. -/
def headerCoordinates : Value :=
  .arr (.cons (.num (-71.0852898)) (.cons (.num 42.3376775) .nil))

/-- The error with which the server turns down the `$size` operand of the
script. -/
def sizeRejected : StoreError :=
  .badValue "Failed to parse $size. Expected a number"

/-! ## Properties of records named by the specification -/

/-- The value at `location.coordinates`, when `location` is a structure that
has the field. -/
def coordinatesOf (d : Record) : Option Value :=
  match d.get? "location" with
  | some (.doc fs) => fs.get? "coordinates"
  | _ => none

/-- The invalid-location predicate in the words of the specification:
`location` absent, `location` null, `location.coordinates` absent,
`location.coordinates` null, or `location.coordinates` an array whose length
is not exactly 2. -/
def specInvalidLocation (d : Record) : Bool :=
  match d.get? "location" with
  | none => true
  | some .null => true
  | _ =>
    match coordinatesOf d with
    | none => true
    | some .null => true
    | some (.arr xs) => xs.length != 2
    | some _ => false

/-- The record's `location` is a structure with a two-element `coordinates`
array. -/
def hasCoordinatePair (d : Record) : Bool :=
  match coordinatesOf d with
  | some (.arr (.cons _ (.cons _ .nil))) => true
  | _ => false

/-- The completeness property of the specification: `location.coordinates` is
a two-element numeric array and `address` is a non-null string. -/
def completeRecord (d : Record) : Bool :=
  (match coordinatesOf d with
    | some (.arr (.cons (.num _) (.cons (.num _) .nil))) => true
    | _ => false) &&
  (match d.get? "address" with
    | some (.str _) => true
    | _ => false)

/-! ## Sample records -/

/-- A record without a `location` field. -/
def noLocation : Record := .cons "name" (.str "Fair") .nil

/-- A record with `location: null`. -/
def nullLocation : Record := .cons "location" .null .nil

/-- A record with `location` an empty structure. -/
def emptyLocation : Record := .cons "location" (.doc .nil) .nil

/-- A record with `location.coordinates` null. -/
def nullCoordinates : Record :=
  .cons "location" (.doc (.cons "coordinates" .null .nil)) .nil

/-- A record with a one-element `location.coordinates`. -/
def oneCoordinate : Record :=
  .cons "location" (.doc (.cons "coordinates" (.arr (.cons (.num 1) .nil)) .nil)) .nil

/-- A record with a scalar `location.coordinates`. -/
def scalarCoordinates : Record :=
  .cons "location" (.doc (.cons "coordinates" (.num 5) .nil)) .nil

/-- A record with a valid point location and no `address` field. -/
def pairNoAddress : Record :=
  .cons "location"
    (.doc (.cons "type" (.str "Point")
      (.cons "coordinates" (.arr (.cons (.num 10) (.cons (.num 20) .nil))) .nil))) .nil

/-- A record with a valid point location and an address. -/
def pairWithAddress : Record :=
  .cons "name" (.str "Gala")
    (.cons "location"
      (.doc (.cons "type" (.str "Point")
        (.cons "coordinates" (.arr (.cons (.num 10) (.cons (.num 20) .nil))) .nil)))
      (.cons "address" (.str "1 Main St") .nil))

/-! ## The store turns the filter down -/

/-- The operand the script gives `$size` is an operator document, which the
server does not accept there. -/
theorem parseQuery_query : parseQuery query = .error sizeRejected := rfl

/-- Against MongoDB the bulk update of the script is rejected, whatever the
collection holds, and writes nothing. -/
theorem updateMany_query (u : UpdateDoc) (events : Collection) :
    updateMany query u events = { events := events, result := .error sizeRejected } := rfl

/-- One call of the script against MongoDB, computed. -/
theorem runScript_eq (events : Collection) :
    runScript events =
      { events := events
        trace := [.updateManyCall query update]
        result := .error sizeRejected } := rfl

/-! ## How `$set` rewrites a record -/

theorem Fields.get?_set_self : ∀ (fs : Fields) (name : String) (w : Value),
    (fs.set name w).get? name = some w
  | .nil, name, w => by simp [Fields.set, Fields.get?]
  | .cons k v fs, name, w => by
    have ih := Fields.get?_set_self fs name w
    by_cases h : k = name
    · simp [Fields.set, Fields.get?, h]
    · simp [Fields.set, Fields.get?, h, ih]

theorem Fields.get?_set_ne : ∀ (fs : Fields) (name k : String) (w : Value), name ≠ k →
    (fs.set name w).get? k = fs.get? k
  | .nil, name, k, w, h => by simp [Fields.set, Fields.get?, h]
  | .cons k0 v fs, name, k, w, h => by
    have ih := Fields.get?_set_ne fs name k w h
    by_cases h0 : k0 = name
    · subst h0
      simp [Fields.set, Fields.get?, h]
    · by_cases h1 : k0 = k
      · subst h1
        simp [Fields.set, Fields.get?, h0]
      · simp [Fields.set, Fields.get?, h0, h1, ih]

/-- The server processes the two `$set` entries of the script in the order
`address`, `location`. -/
theorem orderSets_update :
    orderSets update.set =
      [("address", .str "360 Huntington Ave, Boston, MA 02115"), ("location", targetLocation)] := rfl

/-- The `$set` of the script, applied to a record. -/
theorem applySet_update (d : Record) :
    applySet update d =
      (d.set "address" (.str "360 Huntington Ave, Boston, MA 02115")).set "location"
        targetLocation := by
  simp [applySet, orderSets_update]

theorem applySet_update_location (d : Record) :
    (applySet update d).get? "location" = some targetLocation := by
  rw [applySet_update, Fields.get?_set_self]

theorem applySet_update_address (d : Record) :
    (applySet update d).get? "address" = some (.str "360 Huntington Ave, Boston, MA 02115") := by
  rw [applySet_update, Fields.get?_set_ne _ _ _ _ (by decide), Fields.get?_set_self]

theorem applySet_update_other (d : Record) (k : String) (hl : k ≠ "location")
    (ha : k ≠ "address") : (applySet update d).get? k = d.get? k := by
  rw [applySet_update, Fields.get?_set_ne _ _ _ _ (Ne.symm hl),
    Fields.get?_set_ne _ _ _ _ (Ne.symm ha)]

/-- Whatever the filter, `updateMany` with the update of the script keeps the
number of records, leaves a record it does not select as it is, and leaves
every field but `location` and `address` of any record as it is. -/
theorem updateMany_frame (q : Query) (events : Collection) :
    (updateMany q update events).events.length = events.length ∧
    ∀ (i : Nat) (d : Record), events[i]? = some d →
      ∃ d2, (updateMany q update events).events[i]? = some d2 ∧
        (selects q d ≠ .ok true → d2 = d) ∧
        ∀ k : String, k ≠ "location" → k ≠ "address" → d2.get? k = d.get? k := by
  unfold updateMany selects
  cases hq : parseQuery q with
  | error e =>
    refine ⟨rfl, fun i d hd => ⟨d, hd, fun _ => rfl, fun _ _ _ => rfl⟩⟩
  | ok cs =>
    refine ⟨by simp, fun i d hd => ?_⟩
    by_cases hm : queryMatches cs d = true
    · refine ⟨applySet update d, by simp [hd, hm], fun h => absurd (by simp [hm]) h,
        fun k hl ha => applySet_update_other d k hl ha⟩
    · refine ⟨d, by simp [hd, hm], fun _ => rfl, fun _ _ _ => rfl⟩

/-- Whatever the filter, `updateMany` with the update of the script leaves
each record either exactly as it was or rewritten by the `$set`. -/
theorem updateMany_each (q : Query) (events : Collection) (i : Nat) (d : Record)
    (hd : events[i]? = some d) :
    ∃ d2, (updateMany q update events).events[i]? = some d2 ∧
      (d2 = d ∨ d2 = applySet update d) := by
  unfold updateMany
  cases hq : parseQuery q with
  | error e => exact ⟨d, hd, Or.inl rfl⟩
  | ok cs =>
    by_cases hm : queryMatches cs d = true
    · exact ⟨applySet update d, by simp [hd, hm], Or.inr rfl⟩
    · exact ⟨d, by simp [hd, hm], Or.inl rfl⟩

/-- The `$set` of the script makes any record complete. -/
theorem completeRecord_applySet (d : Record) : completeRecord (applySet update d) = true := by
  simp [completeRecord, coordinatesOf, applySet_update_location, applySet_update_address,
    targetLocation, Fields.get?]

/-- The script hands the collection to the store and takes back what the
store leaves. -/
theorem runScript_events (events : Collection) :
    (runScript events).events = (updateMany query update events).events := by
  simp only [runScript, updateEventsWithoutLocation]
  cases (updateMany query update events).result <;> rfl

/-! ## The claims -/

/-- C1 (the code diverges): each of the five invalid shapes satisfies the
predicate of the specification, yet the store selects none of them. The fifth
clause of the filter gives `$size` an operator document, so the server rejects
the filter for every record, and a run over the five shapes changes nothing. -/
theorem query_rejected_on_invalid_shapes :
    (∀ d : Record, selects query d = .error sizeRejected) ∧
    [noLocation, nullLocation, emptyLocation, nullCoordinates, oneCoordinate].all
      specInvalidLocation = true ∧
    (runScript [noLocation, nullLocation, emptyLocation, nullCoordinates, oneCoordinate]).events =
      [noLocation, nullLocation, emptyLocation, nullCoordinates, oneCoordinate] :=
  ⟨fun _ => rfl, rfl, rfl⟩

/-- C2 (the code diverges): a record without `location` satisfies the
predicate, but after a run over the collection that holds just this record it
still has neither the fallback location nor the fallback address. -/
theorem invalid_record_not_migrated :
    specInvalidLocation noLocation = true ∧
    (runScript [noLocation]).events = [noLocation] ∧
    noLocation.get? "location" = none ∧
    noLocation.get? "address" = none :=
  ⟨rfl, rfl, rfl, rfl⟩

/-- C3: a record whose `location` is a structure with a two-element
`coordinates` array, whatever its address, is not selected by the filter, stays
identical in its place while the records before and after it are processed as
they would be without it, and does not enter the result: the run reports the
same with the record in the collection as without it. -/
theorem coordinate_pair_record_untouched (before after : Collection) (d : Record)
    (_h : hasCoordinatePair d = true) :
    selects query d ≠ .ok true ∧
    (runScript (before ++ d :: after)).events =
      (runScript before).events ++ d :: (runScript after).events ∧
    (runScript (before ++ d :: after)).events[before.length]? = some d ∧
    (runScript (before ++ d :: after)).result = (runScript (before ++ after)).result := by
  refine ⟨?_, ?_, ?_, ?_⟩
  · have hs : selects query d = .error sizeRejected := rfl
    rw [hs]
    intro hc
    cases hc
  · simp [runScript_eq]
  · rw [runScript_eq]
    show (before ++ d :: after)[before.length]? = some d
    rw [List.getElem?_append_right (Nat.le_refl _)]
    simp
  · simp [runScript_eq]

/-- C3 at two records with a point location at [10, 20], one without an
address and one with. -/
theorem coordinate_pair_record_untouched_witness :
    hasCoordinatePair pairNoAddress = true ∧
    (selects query pairNoAddress ≠ .ok true ∧
      (runScript ([noLocation] ++ pairNoAddress :: [pairWithAddress])).events =
        (runScript [noLocation]).events ++ pairNoAddress :: (runScript [pairWithAddress]).events ∧
      (runScript ([noLocation] ++ pairNoAddress :: [pairWithAddress])).events[
        [noLocation].length]? = some pairNoAddress ∧
      (runScript ([noLocation] ++ pairNoAddress :: [pairWithAddress])).result =
        (runScript ([noLocation] ++ [pairWithAddress])).result) :=
  ⟨rfl, coordinate_pair_record_untouched [noLocation] [pairWithAddress] pairNoAddress rfl⟩

/-- C4 (the code diverges): the second of two runs in succession does not
return a result with both counts zero; it is rejected like the first, for
every initial collection. The collection is as the first run left it. -/
theorem second_run_rejected (events : Collection) :
    (runScript (runScript events).events).result = .error sizeRejected ∧
    (runScript (runScript events).events).result ≠
      .ok { acknowledged := true, matchedCount := 0, modifiedCount := 0 } ∧
    (runScript (runScript events).events).events = (runScript events).events := by
  refine ⟨rfl, ?_, rfl⟩
  have hs : (runScript (runScript events).events).result = .error sizeRejected := rfl
  rw [hs]
  intro hc
  cases hc

/-- C5 fails as stated: a record with a valid point location and no address
is still without an address after the run. -/
theorem complete_after_run_fails :
    ¬ ∀ events : Collection, ∀ d ∈ (runScript events).events, completeRecord d = true := by
  intro h
  have h1 := h [pairNoAddress] pairNoAddress (by simp [runScript_eq])
  have h2 : completeRecord pairNoAddress = false := rfl
  rw [h2] at h1
  cases h1

/-- C5 as amended: after the run every record of the collection is either
exactly as it was before or complete (a two-element numeric
`location.coordinates` and a string `address`); and the `$set` the script
issues makes complete any record it is applied to. -/
theorem run_leaves_or_completes (events : Collection) (i : Nat) (d : Record)
    (hd : events[i]? = some d) :
    (∃ d2, (runScript events).events[i]? = some d2 ∧ (d2 = d ∨ completeRecord d2 = true)) ∧
    completeRecord (applySet update d) = true := by
  refine ⟨?_, completeRecord_applySet d⟩
  obtain ⟨d2, h2, h3⟩ := updateMany_each query events i d hd
  refine ⟨d2, by rw [runScript_events]; exact h2, ?_⟩
  rcases h3 with h3 | h3
  · exact Or.inl h3
  · exact Or.inr (by rw [h3]; exact completeRecord_applySet d)

/-- C5 as amended, at the second record of a two-record collection. -/
theorem run_leaves_or_completes_witness :
    [noLocation, pairNoAddress][1]? = some pairNoAddress ∧
    ((∃ d2, (runScript [noLocation, pairNoAddress]).events[1]? = some d2 ∧
        (d2 = pairNoAddress ∨ completeRecord d2 = true)) ∧
      completeRecord (applySet update pairNoAddress) = true) :=
  ⟨rfl, run_leaves_or_completes [noLocation, pairNoAddress] 1 pairNoAddress rfl⟩

/-- C6 (the code diverges): over a collection with one record that satisfies
the predicate, the run returns no result object at all, so neither count is
reported; the store throws instead. -/
theorem run_reports_no_counts :
    ([noLocation].filter specInvalidLocation).length = 1 ∧
    (runScript [noLocation]).result = .error sizeRejected ∧
    ∀ r : UpdateResult, (runScript [noLocation]).result ≠ .ok r := by
  refine ⟨rfl, rfl, fun r => ?_⟩
  have hs : (runScript [noLocation]).result = .error sizeRejected := rfl
  rw [hs]
  intro hc
  cases hc

/-- C7: the run keeps the number of records; a record the filter does not
select, and a record that does not satisfy the predicate of the
specification, is unchanged; and every field other than `location` and
`address` of any record is unchanged. -/
theorem run_frame (events : Collection) (i : Nat) (d : Record)
    (hd : events[i]? = some d) :
    (runScript events).events.length = events.length ∧
    ∃ d2, (runScript events).events[i]? = some d2 ∧
      (selects query d ≠ .ok true → d2 = d) ∧
      (specInvalidLocation d = false → d2 = d) ∧
      ∀ k : String, k ≠ "location" → k ≠ "address" → d2.get? k = d.get? k := by
  obtain ⟨hlen, hrec⟩ := updateMany_frame query events
  obtain ⟨d2, h2, h3, h4⟩ := hrec i d hd
  refine ⟨by rw [runScript_events]; exact hlen, d2, by rw [runScript_events]; exact h2, h3, ?_, h4⟩
  intro _
  exact h3 (by
    have hs : selects query d = .error sizeRejected := rfl
    rw [hs]
    intro hc
    cases hc)

/-- C7 at the second record of a two-record collection. -/
theorem run_frame_witness :
    [noLocation, pairWithAddress][1]? = some pairWithAddress ∧
    ((runScript [noLocation, pairWithAddress]).events.length =
        [noLocation, pairWithAddress].length ∧
      ∃ d2, (runScript [noLocation, pairWithAddress]).events[1]? = some d2 ∧
        (selects query pairWithAddress ≠ .ok true → d2 = pairWithAddress) ∧
        (specInvalidLocation pairWithAddress = false → d2 = pairWithAddress) ∧
        ∀ k : String, k ≠ "location" → k ≠ "address" →
          d2.get? k = pairWithAddress.get? k) :=
  ⟨rfl, run_frame [noLocation, pairWithAddress] 1 pairWithAddress rfl⟩

/-- C8 (the code diverges from its header comment): the coordinates the
`$set` of the script writes into any record are
[-71.08681349999999, 42.3392591], not the [-71.0852898, 42.3376775] of the
header comment. -/
theorem written_coordinates_differ_from_header (d : Record) :
    coordinatesOf (applySet update d) =
      some (.arr (.cons (.num (-71.08681349999999)) (.cons (.num 42.3392591) .nil))) ∧
    coordinatesOf (applySet update d) ≠ some headerCoordinates := by
  have hc : coordinatesOf (applySet update d) =
      some (.arr (.cons (.num (-71.08681349999999)) (.cons (.num 42.3392591) .nil))) := by
    simp [coordinatesOf, applySet_update_location, targetLocation, Fields.get?]
  refine ⟨hc, ?_⟩
  rw [hc]
  simp only [headerCoordinates, ne_eq, Option.some.injEq, Value.arr.injEq, Elems.cons.injEq,
    Value.num.injEq]
  norm_num

/-- C9: against any store handle, one call issues the bulk update exactly
once, with the filter and update of the script; it returns what the store
returned or throws what the store threw, unchanged; and after a success it
prints the line with `modifiedCount` and then the line with `matchedCount`,
after an error nothing. -/
theorem call_reports_store_outcome (db : BulkUpdate) (events : Collection) :
    (updateEventsWithoutLocation db events).result = (db query update events).result ∧
    (updateEventsWithoutLocation db events).events = (db query update events).events ∧
    (updateEventsWithoutLocation db events).trace =
      Effect.updateManyCall query update ::
        (match (db query update events).result with
          | .ok r =>
            [Effect.print ("Updated " ++ toString r.modifiedCount ++
                " events with location: 360 Huntington Ave, Boston, MA 02115"),
              Effect.print ("Matched " ++ toString r.matchedCount ++ " events total")]
          | .error _ => []) := by
  simp only [updateEventsWithoutLocation]
  cases (db query update events).result <;> exact ⟨rfl, rfl, rfl⟩

/-- C10 (the code diverges): on a record whose `location.coordinates` is a
scalar the filter raises an error instead of selecting the record, and the
record is not overwritten. -/
theorem scalar_coordinates_query_error :
    selects query scalarCoordinates = .error sizeRejected ∧
    (runScript [scalarCoordinates]).result = .error sizeRejected ∧
    (runScript [scalarCoordinates]).events = [scalarCoordinates] :=
  ⟨rfl, rfl, rfl⟩

end UpdateEventsLocation
